import Mathlib

/-!
Verification of the pipeline-coordination core of the
models-medical-evaluation repository, as a shallow embedding in Lean 4.

The embedding covers:
* the adaptive batch-size controller (`AdaptiveBatchManager.adjust` in
  src/chapter_2.py and `PluginAdapter._adjust_batch_size` in
  src/plugin_adapter.py);
* the external-predictor gateway (`call_claude` in src/chapter_2.py and
  `call_codex` in src/chapter_3.py), with the subprocess outcome made
  explicit as an inductive type;
* the persistent store operations relevant to idempotent persistence and
  incremental work discovery (`save_prediction_with_tokens` and
  `get_unprocessed_codes` in src/db_manager.py, and the plain INSERT into
  the rag_<corpus_mode>_predictions tables in src/chapter_3.py, whose DDL
  in src/generate_book_report.py carries no unique constraint);
* the retrieval engine (`MedicalCodingRAG.find_similar` in
  src/rag_engine.py) and the caller-side diversity mixing
  (`find_similar_with_rag` in src/chapter_3.py);
* the run-lock startup logic of src/dataset_generation.py;
* the cache file naming of `MedicalCodingRAG.__init__` / `_save_cache` /
  `rebuild` in src/rag_engine.py.

Floating-point success rates and similarity scores are modelled as
rationals: the source only ever compares these values and copies them
around, so any linearly ordered field is a faithful carrier.
-/

/-! ### Adaptive batch-size controller (src/chapter_2.py lines 154-193) -/

/-- State of `AdaptiveBatchManager` (src/chapter_2.py lines 157-161).
The `PluginAdapter` of src/plugin_adapter.py keeps the same four fields
(lines 26, 38-40), so both implementations are modelled on this state. -/
structure AdaptiveBatchManager where
  current_batch_size : Nat
  max_batch_size : Nat
  consecutive_successes : Nat
  consecutive_failures : Nat
deriving Repr, DecidableEq

/-- `AdaptiveBatchManager.adjust` (src/chapter_2.py lines 163-189).
The Python method mutates `self` and returns the new size; here the new
state is returned and the new size is read off with `get_size`. -/
def AdaptiveBatchManager.adjust (m : AdaptiveBatchManager) (success_rate : ℚ) :
    AdaptiveBatchManager :=
  if success_rate < 1/2 then
    { m with current_batch_size := max 1 (m.current_batch_size / 2),
             consecutive_failures := 0, consecutive_successes := 0 }
  else if success_rate < 7/10 then
    let cf := m.consecutive_failures + 1
    if cf ≥ 1 then
      { m with current_batch_size := max 1 (m.current_batch_size - 2),
               consecutive_successes := 0, consecutive_failures := 0 }
    else
      { m with consecutive_failures := cf, consecutive_successes := 0 }
  else if success_rate ≥ 9/10 then
    let cs := m.consecutive_successes + 1
    if cs ≥ 3 then
      { m with current_batch_size := min m.max_batch_size (m.current_batch_size + 1),
               consecutive_successes := 0, consecutive_failures := 0 }
    else
      { m with consecutive_successes := cs, consecutive_failures := 0 }
  else
    { m with consecutive_successes := 0, consecutive_failures := 0 }

/-- `AdaptiveBatchManager.get_size` (src/chapter_2.py lines 191-193). -/
def AdaptiveBatchManager.get_size (m : AdaptiveBatchManager) : Nat :=
  m.current_batch_size

/-- `PluginAdapter._adjust_batch_size` (src/plugin_adapter.py lines
227-258).  Its body on the four state fields is line-for-line the body of
`AdaptiveBatchManager.adjust`; the trailing `record_time_series` call only
logs and does not touch the controller state. -/
def PluginAdapter._adjust_batch_size (m : AdaptiveBatchManager) (success_rate : ℚ) :
    AdaptiveBatchManager :=
  if success_rate < 1/2 then
    { m with current_batch_size := max 1 (m.current_batch_size / 2),
             consecutive_failures := 0, consecutive_successes := 0 }
  else if success_rate < 7/10 then
    let cf := m.consecutive_failures + 1
    if cf ≥ 1 then
      { m with current_batch_size := max 1 (m.current_batch_size - 2),
               consecutive_successes := 0, consecutive_failures := 0 }
    else
      { m with consecutive_failures := cf, consecutive_successes := 0 }
  else if success_rate ≥ 9/10 then
    let cs := m.consecutive_successes + 1
    if cs ≥ 3 then
      { m with current_batch_size := min m.max_batch_size (m.current_batch_size + 1),
               consecutive_successes := 0, consecutive_failures := 0 }
    else
      { m with consecutive_successes := cs, consecutive_failures := 0 }
  else
    { m with consecutive_successes := 0, consecutive_failures := 0 }

/-! ### External predictor gateway (src/chapter_2.py lines 31-70,
src/chapter_3.py lines 71-110) -/

/-- The structured result dictionary returned by `call_claude` /
`call_codex`. -/
structure CallResult where
  success : Bool
  stdout : String
  stderr : String
  response_time : ℚ
  tokens_input : Nat
  tokens_output : Nat
deriving Repr, DecidableEq

/-- The ways the `subprocess.run` call inside the gateway can end:
normal completion with an exit code and captured output, a
`subprocess.TimeoutExpired`, or any other raised exception (transport
error), carrying the elapsed time at which it surfaced. -/
inductive SubprocessOutcome where
  | completed (returncode : Int) (stdout : String) (stderr : String) (elapsed : ℚ)
  | timedOut
  | raised (message : String) (elapsed : ℚ)
deriving Repr, DecidableEq

/-- Python's `len(text.split())`: the number of maximal whitespace-free
words, used by the gateway as its token approximation. -/
def countTokens (text : String) : Nat :=
  ((text.split (fun c => c.isWhitespace)).filter (fun w => w != "")).length

/-- `call_claude` (src/chapter_2.py lines 31-70).  The subprocess outcome
is an explicit argument; each `except` arm of the source is one match
arm, so the function is total: every failure mode is represented in the
returned value. -/
def call_claude (prompt : String) (timeout : ℚ) (outcome : SubprocessOutcome) :
    CallResult :=
  match outcome with
  | .completed returncode stdout stderr elapsed =>
      { success := returncode == 0, stdout := stdout, stderr := stderr,
        response_time := elapsed, tokens_input := countTokens prompt,
        tokens_output := countTokens stdout }
  | .timedOut =>
      { success := false, stdout := "", stderr := "timeout",
        response_time := timeout, tokens_input := countTokens prompt,
        tokens_output := 0 }
  | .raised message elapsed =>
      { success := false, stdout := "", stderr := message,
        response_time := elapsed, tokens_input := 0, tokens_output := 0 }

/-- `call_codex` (src/chapter_3.py lines 71-110); identical to
`call_claude` except for the command line, which does not influence the
result structure. -/
def call_codex (prompt : String) (timeout : ℚ) (outcome : SubprocessOutcome) :
    CallResult :=
  match outcome with
  | .completed returncode stdout stderr elapsed =>
      { success := returncode == 0, stdout := stdout, stderr := stderr,
        response_time := elapsed, tokens_input := countTokens prompt,
        tokens_output := countTokens stdout }
  | .timedOut =>
      { success := false, stdout := "", stderr := "timeout",
        response_time := timeout, tokens_input := countTokens prompt,
        tokens_output := 0 }
  | .raised message elapsed =>
      { success := false, stdout := "", stderr := message,
        response_time := elapsed, tokens_input := 0, tokens_output := 0 }

/-! ### Persistent store: predictions tables (src/db_manager.py,
src/chapter_3.py, src/generate_book_report.py) -/

/-- A row of the `model_predictions` table (src/db_manager.py lines
55-71); the table carries `UNIQUE(code_id, model_name)`. -/
structure ModelPredictionRow where
  code_id : Nat
  model_name : String
  model_version : String
  generated_description : String
  predicted_codes : List String
  confidence : ℚ
  processing_time : ℚ
  input_tokens : Nat
  output_tokens : Nat
  batch_id : Option String
  batch_size : Nat
deriving Repr, DecidableEq

/-- A row of `icd10_codes` (src/db_manager.py lines 34-42), the WorkItem
catalog; `id` is the primary key. -/
structure CatalogCode where
  id : Nat
  code : String
  description : String
  category : String
deriving Repr, DecidableEq

/-- Whether the table already holds a row for the key
`(code_id, model_name)` — the uniqueness tuple of `model_predictions`. -/
def hasPredictionKey (table : List ModelPredictionRow) (code_id : Nat)
    (model_name : String) : Bool :=
  table.any (fun p => p.code_id == code_id && p.model_name == model_name)

/-- `MedicalCodingDB.save_prediction_with_tokens` (src/db_manager.py lines
307-324): an `INSERT OR REPLACE` under `UNIQUE(code_id, model_name)`,
i.e. any existing row with the same key is deleted and the new row is
inserted. -/
def save_prediction_with_tokens (table : List ModelPredictionRow)
    (row : ModelPredictionRow) : List ModelPredictionRow :=
  table.filter (fun p => !(p.code_id == row.code_id && p.model_name == row.model_name))
    ++ [row]

/-- A row of a `rag_<corpus_mode>_predictions` table.  The DDL
(src/generate_book_report.py lines 118-132) has an autoincrement primary
key and NO unique constraint over `(generated_desc_id, model_name)`. -/
structure RagPredictionRow where
  generated_desc_id : Nat
  model_name : String
  predicted_codes : List String
  num_variants_used : Nat
  variant_codes : List String
  confidence : ℚ
  input_tokens : Nat
  output_tokens : Nat
  processing_time : ℚ
deriving Repr, DecidableEq

/-- The persistence step of `run_rag_experiment` (src/chapter_3.py lines
444-469): a plain `INSERT INTO rag_<corpus_mode>_predictions`, which on a
table without a unique constraint always appends a fresh row. -/
def rag_insert_prediction (table : List RagPredictionRow)
    (row : RagPredictionRow) : List RagPredictionRow :=
  table ++ [row]

/-- Number of rows of a `rag_<corpus_mode>_predictions` table holding the
tuple `(generated_desc_id, model_name)`. -/
def countRagKey (table : List RagPredictionRow) (generated_desc_id : Nat)
    (model_name : String) : Nat :=
  (table.filter (fun r => r.generated_desc_id == generated_desc_id
    && r.model_name == model_name)).length

/-- Number of `model_predictions` rows holding the tuple
`(code_id, model_name)`. -/
def countPredictionKey (table : List ModelPredictionRow) (code_id : Nat)
    (model_name : String) : Nat :=
  (table.filter (fun p => p.code_id == code_id && p.model_name == model_name)).length

/-- `MedicalCodingDB.get_unprocessed_codes` with a `model` argument
(src/db_manager.py lines 330-339): the anti-join
`SELECT c.* FROM icd10_codes c LEFT JOIN model_predictions mp ON
c.id = mp.code_id AND mp.model_name = ? WHERE mp.id IS NULL LIMIT ?`.
Row order follows catalog (table) order; `UNIQUE(code_id, model_name)`
rules out join fan-out, so the query is a filter followed by LIMIT. -/
def get_unprocessed_codes (catalog : List CatalogCode)
    (predictions : List ModelPredictionRow) (model : String) (limit : Nat) :
    List CatalogCode :=
  (catalog.filter (fun c => !hasPredictionKey predictions c.id model)).take limit

/-! ### Retrieval engine (src/rag_engine.py lines 165-215) -/

/-- One `corpus_metadata` entry of `MedicalCodingRAG` (src/rag_engine.py
lines 115-120 and 133-138): `source` is `"real"` for the authoritative
icd10_codes corpus and `"synthetic"` for generated variants. -/
structure CorpusEntry where
  code : String
  description : String
  source : String
  detail_level : Option Nat
deriving Repr, DecidableEq

instance : Inhabited CorpusEntry := ⟨⟨"", "", "", none⟩⟩

/-- One result dict of `find_similar` (src/rag_engine.py lines 204-210). -/
structure RagHit where
  code : String
  description : String
  similarity : ℚ
  source : String
  detail_level : Option Nat
deriving Repr, DecidableEq

/-- The cosine-similarity score of corpus index `i` (a lookup into the
`similarities` row vector; out-of-range defaults never arise for indices
produced by `argsort`). -/
def simVal (sims : List ℚ) (i : Nat) : ℚ :=
  sims.getD i 0

/-- The comparison underlying a stable ascending `np.argsort`: order by
similarity value, breaking ties by original position.  (numpy's argsort
sorts ascending; with `kind="stable"` ties keep index order, and the
default introsort gives no tie guarantee at all — under no reading does
the later reversal leave ties in corpus insertion order.) -/
def argsortIdxLe (sims : List ℚ) (i j : Nat) : Bool :=
  if simVal sims i = simVal sims j then decide (i ≤ j)
  else decide (simVal sims i < simVal sims j)

/-- `np.argsort(similarities)`: the corpus indices stably sorted by
ascending similarity. -/
def argsort (sims : List ℚ) : List Nat :=
  (List.range sims.length).mergeSort (argsortIdxLe sims)

/-- `top_indices = np.argsort(similarities)[::-1]` (src/rag_engine.py
line 191). -/
def top_indices (sims : List ℚ) : List Nat :=
  (argsort sims).reverse

/-- Python truthiness guard of line 198:
`if exclude_code and metadata["code"] == exclude_code: continue`.
`None` and the empty string are both falsy, so no exclusion happens for
an empty `exclude_code`. -/
def excludeSkip (exclude_code : Option String) (code : String) : Bool :=
  match exclude_code with
  | none => false
  | some k => k != "" && code == k

/-- Python truthiness guard of line 201:
`if source_filter and metadata["source"] != source_filter: continue`. -/
def sourceSkip (source_filter : Option String) (source : String) : Bool :=
  match source_filter with
  | none => false
  | some f => f != "" && source != f

/-- The result dict built at src/rag_engine.py lines 204-210 for corpus
index `idx`. -/
def mkHit (metadata : List CorpusEntry) (sims : List ℚ) (idx : Nat) : RagHit :=
  let m := metadata.getD idx default
  { code := m.code, description := m.description,
    similarity := simVal sims idx, source := m.source,
    detail_level := m.detail_level }

/-- The result-collection loop of `find_similar` (src/rag_engine.py lines
193-213): walk `top_indices`, skip filtered entries, append otherwise,
and break as soon as `len(results) >= top_k` (checked after appending, so
`need ≤ 1` stops right after a hit is kept).  Returns the kept corpus
indices. -/
def selectTop (metadata : List CorpusEntry) (sims : List ℚ)
    (exclude_code : Option String) (source_filter : Option String) :
    List Nat → Nat → List Nat
  | [], _ => []
  | idx :: rest, need =>
    let m := metadata.getD idx default
    if excludeSkip exclude_code m.code then
      selectTop metadata sims exclude_code source_filter rest need
    else if sourceSkip source_filter m.source then
      selectTop metadata sims exclude_code source_filter rest need
    else if need ≤ 1 then [idx]
    else idx :: selectTop metadata sims exclude_code source_filter rest (need - 1)

/-- `MedicalCodingRAG.find_similar` (src/rag_engine.py lines 165-215).
The engine state is the corpus metadata list; the similarity row
`sims` (one score per corpus entry, produced by the TF-IDF vectorizer and
`cosine_similarity` from the query text) is taken as an argument, so
every query text is covered by quantifying over `sims`. -/
def find_similar (metadata : List CorpusEntry) (sims : List ℚ) (top_k : Nat)
    (exclude_code : Option String) (source_filter : Option String) : List RagHit :=
  (selectTop metadata sims exclude_code source_filter (top_indices sims) top_k).map
    (mkHit metadata sims)

/-- `find_similar_with_rag` (src/chapter_3.py lines 215-242): request
`top_k * 3` candidates, keep the first `top_k` `"real"` hits, and extend
with `"synthetic"` hits only when fewer than `top_k` real hits exist. -/
def find_similar_with_rag (metadata : List CorpusEntry) (sims : List ℚ)
    (top_k : Nat) (exclude_code : Option String) : List RagHit :=
  let candidates := find_similar metadata sims (top_k * 3) exclude_code none
  let real_examples := (candidates.filter (fun c => c.source == "real")).take top_k
  let synthetic_examples := candidates.filter (fun c => c.source == "synthetic")
  let results :=
    if real_examples.length < top_k then
      real_examples ++ synthetic_examples.take (top_k - real_examples.length)
    else real_examples
  results.take top_k

/-! ### Run lock and Scheduler startup (src/dataset_generation.py lines
550-567 and 626-654) -/

/-- Contents of the lock file: holder pid and acquisition timestamp
(src/dataset_generation.py line 555). -/
structure LockInfo where
  pid : Nat
  timestamp : String
deriving Repr, DecidableEq

/-- The world state the startup sequence can touch: the lock file (if
present) and a count of writes performed against the Store. -/
structure SchedulerWorld where
  lock : Option LockInfo
  store_writes : Nat
deriving Repr, DecidableEq

/-- `create_lock_file` (src/dataset_generation.py lines 550-556): if the
lock file exists return False (leaving it untouched), otherwise write pid
and timestamp and return True. -/
def create_lock_file (pid : Nat) (now : String) (w : SchedulerWorld) :
    Bool × SchedulerWorld :=
  if w.lock.isSome then (false, w)
  else (true, { w with lock := some ⟨pid, now⟩ })

/-- `remove_lock_file` (src/dataset_generation.py lines 559-562). -/
def remove_lock_file (w : SchedulerWorld) : SchedulerWorld :=
  { w with lock := none }

/-- The generation-path startup sequence of `__main__`
(src/dataset_generation.py lines 626-654): call `create_lock_file`; if it
returns False, print and `exit(1)` (modelled as exit code `some 1`)
before the `try` block, so the generation loop — abstracted as an
arbitrary world transformer `loop` — never runs and no Store write
happens; otherwise run the loop and remove the lock in the `finally`. -/
def scheduler_main (pid : Nat) (now : String)
    (loop : SchedulerWorld → SchedulerWorld) (w : SchedulerWorld) :
    Option Nat × SchedulerWorld :=
  let acquired := create_lock_file pid now w
  if acquired.1 = false then (some 1, acquired.2)
  else
    let w2 := loop acquired.2
    (none, remove_lock_file w2)

/-! ### Retrieval cache file names (src/rag_engine.py lines 25-52, 54-62,
82-98, 230-238) -/

/-- `os.path.join(cache_dir, name)` for the POSIX paths in use. -/
def joinPath (dir name : String) : String :=
  dir ++ "/" ++ name

/-- The three cache artifact paths for a given suffix, as listed in
`_load_cache` (src/rag_engine.py lines 56-60) and written by `_save_cache`
(lines 85-94): vectorizer pickle, embeddings matrix, corpus metadata. -/
def cache_file_names (cache_dir suffix : String) : List String :=
  [ joinPath cache_dir ("vectorizer" ++ suffix ++ ".pkl"),
    joinPath cache_dir ("embeddings" ++ suffix ++ ".npy"),
    joinPath cache_dir ("corpus" ++ suffix ++ ".json") ]

/-- The suffix used by `__init__` (src/rag_engine.py line 45):
`cache_suffix = f"_{corpus_mode}"`. -/
def init_cache_suffix (corpus_mode : String) : String :=
  "_" ++ corpus_mode

/-- The cache files `__init__` tries to load (and, on a miss, saves):
`_load_cache(cache_suffix)` / `_save_cache(cache_suffix)`
(src/rag_engine.py lines 48-52). -/
def init_load_files (cache_dir corpus_mode : String) : List String :=
  cache_file_names cache_dir (init_cache_suffix corpus_mode)

/-- The cache files `rebuild` writes: `self._save_cache()` with the
default suffix `""` (src/rag_engine.py lines 230-238 and 82). -/
def rebuild_save_files (cache_dir : String) : List String :=
  cache_file_names cache_dir ""

/-! ## Theorems -/

/-! ### Controller lemmas -/

theorem plugin_adjust_eq_adjust :
    PluginAdapter._adjust_batch_size = AdaptiveBatchManager.adjust := rfl

theorem adjust_preserves_bounds (m : AdaptiveBatchManager) (r : ℚ)
    (h1 : 1 ≤ m.current_batch_size) (h2 : m.current_batch_size ≤ m.max_batch_size) :
    1 ≤ (m.adjust r).current_batch_size ∧
      (m.adjust r).current_batch_size ≤ (m.adjust r).max_batch_size ∧
      (m.adjust r).max_batch_size = m.max_batch_size := by
  rcases m with ⟨s, mx, cs, cf⟩
  simp only [AdaptiveBatchManager.adjust] at *
  split_ifs <;> simp_all <;> omega

theorem foldl_adjust_preserves_bounds (rates : List ℚ) (m : AdaptiveBatchManager)
    (h1 : 1 ≤ m.current_batch_size) (h2 : m.current_batch_size ≤ m.max_batch_size) :
    1 ≤ (rates.foldl AdaptiveBatchManager.adjust m).current_batch_size ∧
      (rates.foldl AdaptiveBatchManager.adjust m).current_batch_size ≤
        (rates.foldl AdaptiveBatchManager.adjust m).max_batch_size ∧
      (rates.foldl AdaptiveBatchManager.adjust m).max_batch_size = m.max_batch_size := by
  induction rates generalizing m with
  | nil => exact ⟨h1, h2, rfl⟩
  | cons r rest ih =>
    obtain ⟨g1, g2, g3⟩ := adjust_preserves_bounds m r h1 h2
    obtain ⟨k1, k2, k3⟩ := ih (m.adjust r) g1 (g3 ▸ g2)
    exact ⟨k1, k2, k3.trans g3⟩

/-- C1: for every sequence of `adjust` calls starting from an initial
size in `[1, maxBatchSize]`, the size reported by `get_size` stays in
`[1, maxBatchSize]` — for both implementations of the controller
(`AdaptiveBatchManager.adjust` and `PluginAdapter._adjust_batch_size`). -/
theorem C1_controller_size_stays_within_bounds (rates : List ℚ)
    (m : AdaptiveBatchManager) (h1 : 1 ≤ m.get_size)
    (h2 : m.get_size ≤ m.max_batch_size) :
    (1 ≤ (rates.foldl AdaptiveBatchManager.adjust m).get_size ∧
      (rates.foldl AdaptiveBatchManager.adjust m).get_size ≤ m.max_batch_size) ∧
    (1 ≤ (rates.foldl PluginAdapter._adjust_batch_size m).get_size ∧
      (rates.foldl PluginAdapter._adjust_batch_size m).get_size ≤ m.max_batch_size) := by
  obtain ⟨k1, k2, k3⟩ := foldl_adjust_preserves_bounds rates m h1 h2
  rw [plugin_adjust_eq_adjust]
  exact ⟨⟨k1, k3 ▸ k2⟩, ⟨k1, k3 ▸ k2⟩⟩

/-- Witness for C1 at a concrete starting state and rate sequence. -/
theorem C1_witness :
    (1 ≤ (([3/10, 95/100] : List ℚ).foldl AdaptiveBatchManager.adjust
        ⟨10, 20, 0, 0⟩).get_size ∧
      (([3/10, 95/100] : List ℚ).foldl AdaptiveBatchManager.adjust
        ⟨10, 20, 0, 0⟩).get_size ≤ 20) ∧
    (1 ≤ (([3/10, 95/100] : List ℚ).foldl PluginAdapter._adjust_batch_size
        ⟨10, 20, 0, 0⟩).get_size ∧
      (([3/10, 95/100] : List ℚ).foldl PluginAdapter._adjust_batch_size
        ⟨10, 20, 0, 0⟩).get_size ≤ 20) :=
  C1_controller_size_stays_within_bounds [3/10, 95/100] ⟨10, 20, 0, 0⟩
    (by decide) (by decide)

/-- C2: single-call behavior of `adjust` in all four bands, plus the two
concrete traces: `[0.6, 0.6]` from size 10 gives 8 then 6, and
`[0.95, 0.95, 0.95]` from size 5 with ceiling 20 gives 5, 5, then 6. -/
theorem C2_adjust_single_call_behavior (m : AdaptiveBatchManager) (r : ℚ) :
    (r < 1/2 → m.adjust r =
      { m with current_batch_size := max 1 (m.current_batch_size / 2),
               consecutive_successes := 0, consecutive_failures := 0 }) ∧
    (1/2 ≤ r → r < 7/10 → m.adjust r =
      { m with current_batch_size := max 1 (m.current_batch_size - 2),
               consecutive_successes := 0, consecutive_failures := 0 }) ∧
    (9/10 ≤ r → 3 ≤ m.consecutive_successes + 1 → m.adjust r =
      { m with current_batch_size := min m.max_batch_size (m.current_batch_size + 1),
               consecutive_successes := 0, consecutive_failures := 0 }) ∧
    (9/10 ≤ r → m.consecutive_successes + 1 < 3 → m.adjust r =
      { m with consecutive_successes := m.consecutive_successes + 1,
               consecutive_failures := 0 }) ∧
    (7/10 ≤ r → r < 9/10 → m.adjust r =
      { m with consecutive_successes := 0, consecutive_failures := 0 }) ∧
    ((AdaptiveBatchManager.adjust ⟨10, 20, 0, 0⟩ (6/10)).get_size = 8 ∧
      (((⟨10, 20, 0, 0⟩ : AdaptiveBatchManager).adjust (6/10)).adjust
        (6/10)).get_size = 6) ∧
    ((((⟨5, 20, 0, 0⟩ : AdaptiveBatchManager).adjust (95/100)).get_size = 5) ∧
      ((((⟨5, 20, 0, 0⟩ : AdaptiveBatchManager).adjust (95/100)).adjust
        (95/100)).get_size = 5) ∧
      (((((⟨5, 20, 0, 0⟩ : AdaptiveBatchManager).adjust (95/100)).adjust
        (95/100)).adjust (95/100)).get_size = 6)) := by
  refine ⟨?_, ?_, ?_, ?_, ?_, ?_, ?_⟩
  · intro h
    simp only [AdaptiveBatchManager.adjust, if_pos h]
  · intro h1 h2
    simp only [AdaptiveBatchManager.adjust, if_neg (not_lt.mpr h1), if_pos h2]
    simp
  · intro h1 h2
    have n1 : ¬(r < 1/2) := not_lt.mpr (le_trans (by norm_num) h1)
    have n2 : ¬(r < 7/10) := not_lt.mpr (le_trans (by norm_num) h1)
    simp only [AdaptiveBatchManager.adjust, if_neg n1, if_neg n2,
      if_pos (show r ≥ 9/10 from h1)]
    simp [h2]
  · intro h1 h2
    have n1 : ¬(r < 1/2) := not_lt.mpr (le_trans (by norm_num) h1)
    have n2 : ¬(r < 7/10) := not_lt.mpr (le_trans (by norm_num) h1)
    simp only [AdaptiveBatchManager.adjust, if_neg n1, if_neg n2,
      if_pos (show r ≥ 9/10 from h1)]
    simp [Nat.lt_irrefl, not_le.mpr h2]
  · intro h1 h2
    have n1 : ¬(r < 1/2) := not_lt.mpr (le_trans (by norm_num) h1)
    have n2 : ¬(r < 7/10) := not_lt.mpr (le_trans (by norm_num) h1)
    simp only [AdaptiveBatchManager.adjust, if_neg n1, if_neg n2,
      if_neg (not_le.mpr h2)]
  · constructor <;>
      norm_num [AdaptiveBatchManager.adjust, AdaptiveBatchManager.get_size]
  · refine ⟨?_, ?_, ?_⟩ <;>
      norm_num [AdaptiveBatchManager.adjust, AdaptiveBatchManager.get_size]

/-- Witness for C2 at the concrete state `⟨10, 20, 0, 0⟩` and rate 0.6:
the mild-degradation band subtracts 2 immediately. -/
theorem C2_witness :
    AdaptiveBatchManager.adjust ⟨10, 20, 0, 0⟩ (6/10) =
      { current_batch_size := max 1 (10 - 2), max_batch_size := 20,
        consecutive_successes := 0, consecutive_failures := 0 } :=
  (C2_adjust_single_call_behavior ⟨10, 20, 0, 0⟩ (6/10)).2.1
    (by norm_num) (by norm_num)

/-- C5: the gateway is total over all subprocess outcomes, and on each
failure mode returns the structured result the spec describes: on
timeout `success=false`, `stderr="timeout"`, `response_time=timeout`; on
non-zero exit `success=false` with the captured stderr; on any raised
transport error `success=false` with the stringified message — for both
`call_claude` and `call_codex`. -/
theorem C5_gateway_failure_modes_in_result (prompt : String) (timeout : ℚ)
    (returncode : Int) (stdout stderr message : String) (elapsed : ℚ) :
    ((call_claude prompt timeout .timedOut).success = false ∧
      (call_claude prompt timeout .timedOut).stderr = "timeout" ∧
      (call_claude prompt timeout .timedOut).response_time = timeout) ∧
    (returncode ≠ 0 →
      (call_claude prompt timeout (.completed returncode stdout stderr elapsed)).success
          = false ∧
        (call_claude prompt timeout
          (.completed returncode stdout stderr elapsed)).stderr = stderr) ∧
    ((call_claude prompt timeout (.raised message elapsed)).success = false ∧
      (call_claude prompt timeout (.raised message elapsed)).stderr = message) ∧
    ((call_codex prompt timeout .timedOut).success = false ∧
      (call_codex prompt timeout .timedOut).stderr = "timeout" ∧
      (call_codex prompt timeout .timedOut).response_time = timeout) ∧
    (returncode ≠ 0 →
      (call_codex prompt timeout (.completed returncode stdout stderr elapsed)).success
          = false ∧
        (call_codex prompt timeout
          (.completed returncode stdout stderr elapsed)).stderr = stderr) ∧
    ((call_codex prompt timeout (.raised message elapsed)).success = false ∧
      (call_codex prompt timeout (.raised message elapsed)).stderr = message) := by
  refine ⟨⟨rfl, rfl, rfl⟩, ?_, ⟨rfl, rfl⟩, ⟨rfl, rfl, rfl⟩, ?_, ⟨rfl, rfl⟩⟩ <;>
    · intro h
      simp [call_claude, call_codex, h]

/-- Witness for C5 at a concrete non-zero exit code. -/
theorem C5_witness :
    ((call_claude "p" 30 .timedOut).success = false ∧
      (call_claude "p" 30 .timedOut).stderr = "timeout" ∧
      (call_claude "p" 30 .timedOut).response_time = 30) ∧
    ((1 : Int) ≠ 0 →
      (call_claude "p" 30 (.completed 1 "" "boom" 2)).success = false ∧
        (call_claude "p" 30 (.completed 1 "" "boom" 2)).stderr = "boom") ∧
    ((call_claude "p" 30 (.raised "err" 2)).success = false ∧
      (call_claude "p" 30 (.raised "err" 2)).stderr = "err") ∧
    ((call_codex "p" 30 .timedOut).success = false ∧
      (call_codex "p" 30 .timedOut).stderr = "timeout" ∧
      (call_codex "p" 30 .timedOut).response_time = 30) ∧
    ((1 : Int) ≠ 0 →
      (call_codex "p" 30 (.completed 1 "" "boom" 2)).success = false ∧
        (call_codex "p" 30 (.completed 1 "" "boom" 2)).stderr = "boom") ∧
    ((call_codex "p" 30 (.raised "err" 2)).success = false ∧
      (call_codex "p" 30 (.raised "err" 2)).stderr = "err") :=
  C5_gateway_failure_modes_in_result "p" 30 1 "" "boom" "err" 2

/-! ### Store persistence: upsert vs plain insert -/

theorem countPredictionKey_save (table : List ModelPredictionRow)
    (row : ModelPredictionRow) :
    countPredictionKey (save_prediction_with_tokens table row) row.code_id
      row.model_name = 1 := by
  unfold countPredictionKey save_prediction_with_tokens
  rw [List.filter_append, List.length_append]
  have h1 : (table.filter (fun p =>
      !(p.code_id == row.code_id && p.model_name == row.model_name))).filter
      (fun p => p.code_id == row.code_id && p.model_name == row.model_name) = [] := by
    rw [List.filter_filter]
    apply List.filter_eq_nil_iff.mpr
    intro p _
    cases h : (p.code_id == row.code_id && p.model_name == row.model_name) <;> simp [h]
  rw [h1]
  simp

/-- C3 counterexample: persisting the same RAG-stage result twice via the
plain `INSERT INTO rag_<corpus_mode>_predictions` of `run_rag_experiment`
leaves two rows for the tuple `(generated_desc_id, model_name)` — the
claim that every stage-result table upserts is false at this input. -/
theorem C3_counterexample :
    countRagKey
      (rag_insert_prediction
        (rag_insert_prediction [] ⟨7, "claude", ["A00.0"], 3, ["A00.0"], 1, 10, 5, 2⟩)
        ⟨7, "claude", ["A00.0"], 3, ["A00.0"], 1, 10, 5, 2⟩) 7 "claude" = 2 ∧
    countRagKey
      (rag_insert_prediction
        (rag_insert_prediction [] ⟨7, "claude", ["A00.0"], 3, ["A00.0"], 1, 10, 5, 2⟩)
        ⟨7, "claude", ["A00.0"], 3, ["A00.0"], 1, 10, 5, 2⟩) 7 "claude" ≠ 1 := by
  constructor <;> decide

/-- C3 amended: `save_prediction_with_tokens` (INSERT OR REPLACE under
`UNIQUE(code_id, model_name)`) is a true upsert — after saving a result,
and in particular after saving it twice, exactly one `model_predictions`
row holds its key — but the RAG-experiment stage persists with a plain
INSERT into a table with no unique constraint, so every repeated persist
adds one more row for the same `(generated_desc_id, model_name)`. -/
theorem C3_amended_upsert_only_for_model_predictions
    (mtable : List ModelPredictionRow) (mrow : ModelPredictionRow)
    (rtable : List RagPredictionRow) (rrow : RagPredictionRow) :
    countPredictionKey (save_prediction_with_tokens mtable mrow) mrow.code_id
        mrow.model_name = 1 ∧
    countPredictionKey
        (save_prediction_with_tokens (save_prediction_with_tokens mtable mrow) mrow)
        mrow.code_id mrow.model_name = 1 ∧
    countRagKey (rag_insert_prediction rtable rrow) rrow.generated_desc_id
        rrow.model_name =
      countRagKey rtable rrow.generated_desc_id rrow.model_name + 1 := by
  refine ⟨countPredictionKey_save mtable mrow, countPredictionKey_save _ mrow, ?_⟩
  unfold countRagKey rag_insert_prediction
  rw [List.filter_append, List.length_append]
  simp

/-! ### Run lock -/

/-- C9: when a lock is already present at startup, `create_lock_file`
returns False and the process exits with code 1 before entering the
`try` block: the generation loop (here an arbitrary world transformer)
never runs, the world — including the Store-write count — is unchanged,
and the pre-existing lock file is left in place. -/
theorem C9_lock_held_fails_fast_without_side_effects (pid : Nat) (now : String)
    (loop : SchedulerWorld → SchedulerWorld) (w : SchedulerWorld) (L : LockInfo)
    (h : w.lock = some L) :
    scheduler_main pid now loop w = (some 1, w) ∧
    (create_lock_file pid now w).1 = false ∧
    (scheduler_main pid now loop w).2.lock = some L ∧
    (scheduler_main pid now loop w).2.store_writes = w.store_writes := by
  unfold scheduler_main create_lock_file
  rw [h]
  simp [h]

/-- Witness for C9: a pre-existing lock by pid 1, a loop that would
write to the Store if it ever ran. -/
theorem C9_witness :
    scheduler_main 2 "2024-01-01T00:00:00"
        (fun v => { v with store_writes := v.store_writes + 1 })
        ⟨some ⟨1, "2023-12-31T23:59:59"⟩, 0⟩ =
      (some 1, ⟨some ⟨1, "2023-12-31T23:59:59"⟩, 0⟩) ∧
    (create_lock_file 2 "2024-01-01T00:00:00"
        ⟨some ⟨1, "2023-12-31T23:59:59"⟩, 0⟩).1 = false ∧
    (scheduler_main 2 "2024-01-01T00:00:00"
        (fun v => { v with store_writes := v.store_writes + 1 })
        ⟨some ⟨1, "2023-12-31T23:59:59"⟩, 0⟩).2.lock =
      some ⟨1, "2023-12-31T23:59:59"⟩ ∧
    (scheduler_main 2 "2024-01-01T00:00:00"
        (fun v => { v with store_writes := v.store_writes + 1 })
        ⟨some ⟨1, "2023-12-31T23:59:59"⟩, 0⟩).2.store_writes = 0 :=
  C9_lock_held_fails_fast_without_side_effects 2 "2024-01-01T00:00:00" _ _ _ rfl

/-! ### Cache file names -/

theorem string_ne_of_length_ne {a b : String} (h : a.length ≠ b.length) :
    a ≠ b := fun e => h (congrArg String.length e)


theorem joinPath_name_inj {dir a b : String} (h : joinPath dir a = joinPath dir b) :
    a = b := by
  unfold joinPath at h
  have hd := congrArg String.data h
  rw [String.data_append, String.data_append, String.data_append,
    String.data_append] at hd
  exact String.ext (List.append_cancel_left hd)

theorem fullname_length (a s b : String) :
    (a ++ s ++ b).length = a.length + s.length + b.length := by
  rw [String.length_append, String.length_append]

theorem corpus_json_ne_vectorizer_name (s t : String) :
    ("corpus" ++ s ++ ".json" : String) ≠ ("vectorizer" ++ t ++ ".pkl") := by
  intro h
  have hd : ("corpus" ++ s ++ ".json" : String).data.head? =
      ("vectorizer" ++ t ++ ".pkl" : String).data.head? := by rw [h]
  rw [String.data_append, String.data_append, String.data_append,
    String.data_append] at hd
  have h1 : ((("corpus" : String).data ++ s.data) ++ (".json" : String).data).head?
      = some 'c' := rfl
  have h2 : ((("vectorizer" : String).data ++ t.data) ++ (".pkl" : String).data).head?
      = some 'v' := rfl
  rw [h1, h2] at hd
  simp at hd

theorem corpus_json_ne_embeddings_name (s t : String) :
    ("corpus" ++ s ++ ".json" : String) ≠ ("embeddings" ++ t ++ ".npy") := by
  intro h
  have hd : ("corpus" ++ s ++ ".json" : String).data.head? =
      ("embeddings" ++ t ++ ".npy" : String).data.head? := by rw [h]
  rw [String.data_append, String.data_append, String.data_append,
    String.data_append] at hd
  have h1 : ((("corpus" : String).data ++ s.data) ++ (".json" : String).data).head?
      = some 'c' := rfl
  have h2 : ((("embeddings" : String).data ++ t.data) ++ (".npy" : String).data).head?
      = some 'e' := rfl
  rw [h1, h2] at hd
  simp at hd

/-- C10: the constructor loads (and on a miss saves) the cache under
names with the `_<corpus_mode>` suffix, while `rebuild` saves under the
unsuffixed default names — so for every corpus mode and cache directory,
no file `rebuild` writes is among the files a subsequently constructed
engine with that corpus mode loads. -/
theorem C10_rebuild_writes_disjoint_from_init_loads (cache_dir corpus_mode : String) :
    ∀ f ∈ rebuild_save_files cache_dir, f ∉ init_load_files cache_dir corpus_mode := by
  intro f hf hmem
  have e1 : ("vectorizer" : String).length = 10 := rfl
  have e2 : ("embeddings" : String).length = 10 := rfl
  have e3 : ("corpus" : String).length = 6 := rfl
  have e4 : ((".pkl" : String)).length = 4 := rfl
  have e5 : ((".npy" : String)).length = 4 := rfl
  have e6 : ((".json" : String)).length = 5 := rfl
  have e7 : ("" : String).length = 0 := rfl
  have e8 : ∀ s : String, ("_" ++ s : String).length = 1 + s.length := by
    intro s
    rw [String.length_append]
    rfl
  simp only [rebuild_save_files, init_load_files, cache_file_names,
    init_cache_suffix, List.mem_cons, List.not_mem_nil, or_false] at hf hmem
  rcases hf with hf | hf | hf <;> rcases hmem with hm | hm | hm <;>
    rw [hf] at hm <;> have hn := joinPath_name_inj hm <;>
    have hL := congrArg String.length hn <;>
    rw [fullname_length, fullname_length, e8] at hL
  · omega
  · omega
  · exact corpus_json_ne_vectorizer_name ("_" ++ corpus_mode) "" hn.symm
  · omega
  · omega
  · exact corpus_json_ne_embeddings_name ("_" ++ corpus_mode) "" hn.symm
  · omega
  · omega
  · omega

/-- Witness for C10: the `vectorizer.pkl` written by `rebuild` is not
among the files the constructor with corpus mode `"both"` loads. -/
theorem C10_witness :
    joinPath ".rag_cache" ("vectorizer" ++ "" ++ ".pkl") ∉
      init_load_files ".rag_cache" "both" :=
  C10_rebuild_writes_disjoint_from_init_loads ".rag_cache" "both"
    (joinPath ".rag_cache" ("vectorizer" ++ "" ++ ".pkl")) (by decide)

/-! ### Incremental work discovery (anti-join resumability) -/

theorem hasPredictionKey_save (t : List ModelPredictionRow) (row : ModelPredictionRow)
    (cid : Nat) (m : String) :
    hasPredictionKey (save_prediction_with_tokens t row) cid m =
      (hasPredictionKey t cid m || (row.code_id == cid && row.model_name == m)) := by
  rw [Bool.eq_iff_iff]
  unfold hasPredictionKey save_prediction_with_tokens
  simp only [List.any_append, List.any_eq_true, List.mem_filter, List.mem_singleton,
    Bool.or_eq_true, Bool.and_eq_true, Bool.not_eq_true', Bool.and_eq_false_iff,
    beq_iff_eq, beq_eq_false_iff_ne, ne_eq]
  by_cases hk : row.code_id = cid ∧ row.model_name = m
  · simp [hk]
  · constructor
    · rintro (⟨p, ⟨hp, _⟩, hq⟩ | ⟨p, hp, hq⟩)
      · exact Or.inl ⟨p, hp, hq⟩
      · subst hp; exact Or.inr hq
    · rintro (⟨p, hp, hq⟩ | hq)
      · left
        refine ⟨p, ⟨hp, ?_⟩, hq⟩
        rcases hq with ⟨hq1, hq2⟩
        by_cases h1 : p.code_id = row.code_id
        · right
          intro h2
          exact hk ⟨h1.symm.trans hq1, h2.symm.trans hq2⟩
        · left
          exact h1
      · exact absurd hq hk

theorem hasPredictionKey_foldl_save (S : List CatalogCode)
    (rowF : CatalogCode → ModelPredictionRow) (model : String)
    (hrow : ∀ c, (rowF c).code_id = c.id ∧ (rowF c).model_name = model)
    (preds : List ModelPredictionRow) (cid : Nat) :
    hasPredictionKey (S.foldl (fun t c => save_prediction_with_tokens t (rowF c)) preds)
        cid model =
      (hasPredictionKey preds cid model || S.any (fun s => s.id == cid)) := by
  induction S generalizing preds with
  | nil => simp
  | cons s rest ih =>
    rw [List.foldl_cons, ih, hasPredictionKey_save, List.any_cons]
    rcases hrow s with ⟨h1, h2⟩
    rw [h1, h2]
    simp [Bool.or_assoc, Bool.or_comm]

theorem filter_any_of_sublist (S l : List CatalogCode) (h : List.Sublist S l)
    (hnd : (l.map CatalogCode.id).Nodup) :
    l.filter (fun c => S.any (fun s => s.id == c.id)) = S := by
  induction h with
  | slnil => simp
  | cons a h ih =>
    rename_i l1 l2
    rw [List.map_cons] at hnd
    have hnd2 := (List.nodup_cons.mp hnd).2
    have hna : ∀ s ∈ l1, s.id ≠ a.id := by
      intro s hs h0
      exact (List.nodup_cons.mp hnd).1
        (h0 ▸ List.mem_map_of_mem CatalogCode.id (h.subset hs))
    rw [List.filter_cons]
    have : (l1.any (fun s => s.id == a.id)) = false := by
      simp only [List.any_eq_false]
      intro s hs
      simp [hna s hs]
    rw [this]
    simp only [Bool.false_eq_true, if_false]
    exact ih hnd2
  | cons₂ a h ih =>
    rename_i l1 l2
    rw [List.map_cons] at hnd
    have hnd2 := (List.nodup_cons.mp hnd).2
    rw [List.filter_cons]
    simp only [List.any_cons, beq_self_eq_true, Bool.true_or, if_true]
    congr 1
    have hna : ∀ c ∈ l2, (a.id == c.id || l1.any (fun s => s.id == c.id))
        = l1.any (fun s => s.id == c.id) := by
      intro c hc
      have : (a.id == c.id) = false := by
        have : a.id ≠ c.id := by
          intro h0
          exact (List.nodup_cons.mp hnd).1
            (h0 ▸ List.mem_map_of_mem CatalogCode.id hc)
        simp [this]
      rw [this, Bool.false_or]
    rw [List.filter_congr hna]
    exact ih hnd2

/-- C4: pending work is re-derived from store state.  If the anti-join
`get_unprocessed_codes` returns its full pending set (`N ≤ limit` units)
and any `⌊N/2⌋` of them are persisted through the
`save_prediction_with_tokens` upsert for the same model, the next call
returns exactly the remaining `N - ⌊N/2⌋ = ⌈N/2⌉` units: the persisted
ones are gone, nothing else changed, and no unit is listed twice. -/
theorem C4_pending_work_rederived (catalog : List CatalogCode)
    (preds : List ModelPredictionRow) (model : String) (limit : Nat)
    (S : List CatalogCode) (rowF : CatalogCode → ModelPredictionRow)
    (hrow : ∀ c, (rowF c).code_id = c.id ∧ (rowF c).model_name = model)
    (hnd : (catalog.map CatalogCode.id).Nodup)
    (hfull : (catalog.filter
      (fun c => !hasPredictionKey preds c.id model)).length ≤ limit)
    (hS : List.Sublist S (get_unprocessed_codes catalog preds model limit))
    (hlen : S.length = (get_unprocessed_codes catalog preds model limit).length / 2) :
    get_unprocessed_codes catalog
        (S.foldl (fun t c => save_prediction_with_tokens t (rowF c)) preds) model limit
      = (get_unprocessed_codes catalog preds model limit).filter
          (fun c => !S.any (fun s => s.id == c.id)) ∧
    (get_unprocessed_codes catalog
        (S.foldl (fun t c => save_prediction_with_tokens t (rowF c)) preds) model
        limit).length
      = (get_unprocessed_codes catalog preds model limit).length
        - (get_unprocessed_codes catalog preds model limit).length / 2 ∧
    (∀ c ∈ S, c ∉ get_unprocessed_codes catalog
        (S.foldl (fun t c => save_prediction_with_tokens t (rowF c)) preds) model limit) ∧
    (get_unprocessed_codes catalog
        (S.foldl (fun t c => save_prediction_with_tokens t (rowF c)) preds) model
        limit).Nodup := by
  have hr1 : get_unprocessed_codes catalog preds model limit
      = catalog.filter (fun c => !hasPredictionKey preds c.id model) := by
    unfold get_unprocessed_codes
    exact List.take_of_length_le hfull
  have hmain : get_unprocessed_codes catalog
      (S.foldl (fun t c => save_prediction_with_tokens t (rowF c)) preds) model limit
      = (get_unprocessed_codes catalog preds model limit).filter
          (fun c => !S.any (fun s => s.id == c.id)) := by
    unfold get_unprocessed_codes
    have hp2 : ∀ c ∈ catalog,
        (!hasPredictionKey
          (S.foldl (fun t c => save_prediction_with_tokens t (rowF c)) preds) c.id model)
        = ((!S.any (fun s => s.id == c.id)) && !hasPredictionKey preds c.id model) := by
      intro c _
      rw [hasPredictionKey_foldl_save S rowF model hrow preds c.id]
      rw [Bool.not_or]
      rw [Bool.and_comm]
    rw [List.filter_congr hp2]
    rw [← List.filter_filter]
    have hle : ((catalog.filter (fun c => !hasPredictionKey preds c.id model)).filter
        (fun c => !S.any (fun s => s.id == c.id))).length ≤ limit :=
      le_trans (List.length_filter_le _ _) hfull
    rw [List.take_of_length_le hle]
    rw [List.take_of_length_le hfull]
  have hndr1 : ((get_unprocessed_codes catalog preds model limit).map
      CatalogCode.id).Nodup := by
    rw [hr1]
    exact hnd.sublist (List.Sublist.map CatalogCode.id (List.filter_sublist catalog))
  refine ⟨hmain, ?_, ?_, ?_⟩
  · rw [hmain]
    have hsplit : (get_unprocessed_codes catalog preds model limit).length
        = ((get_unprocessed_codes catalog preds model limit).filter
            (fun c => S.any (fun s => s.id == c.id))).length
          + ((get_unprocessed_codes catalog preds model limit).filter
            (fun c => !S.any (fun s => s.id == c.id))).length :=
      List.length_eq_length_filter_add _
    rw [filter_any_of_sublist S _ hS hndr1] at hsplit
    omega
  · intro c hc hmem
    rw [hmain, List.mem_filter] at hmem
    rcases hmem with ⟨_, hq⟩
    simp only [Bool.not_eq_true', List.any_eq_false] at hq
    have := hq c hc
    simp at this
  · rw [hmain]
    exact ((List.Nodup.of_map _ hndr1).filter _)

/-- Witness for C4: a three-code catalog, no prior predictions, limit 10;
the first pending unit is persisted (`⌊3/2⌋ = 1` of the 3), and the next
anti-join call returns exactly the remaining 2 units. -/
theorem C4_witness :
    get_unprocessed_codes
        [⟨1, "A00", "Cholera", "infectious"⟩, ⟨2, "A01", "Typhoid", "infectious"⟩,
          ⟨3, "A02", "Salmonella", "infectious"⟩]
        (([⟨1, "A00", "Cholera", "infectious"⟩] : List CatalogCode).foldl
          (fun t c => save_prediction_with_tokens t
            ⟨c.id, "claude", "v1", "desc", [], 1, 1, 3, 2, none, 1⟩) [])
        "claude" 10
      = (get_unprocessed_codes
          [⟨1, "A00", "Cholera", "infectious"⟩, ⟨2, "A01", "Typhoid", "infectious"⟩,
            ⟨3, "A02", "Salmonella", "infectious"⟩] [] "claude" 10).filter
          (fun c => !([⟨1, "A00", "Cholera", "infectious"⟩] : List CatalogCode).any
            (fun s => s.id == c.id)) ∧
    (get_unprocessed_codes
        [⟨1, "A00", "Cholera", "infectious"⟩, ⟨2, "A01", "Typhoid", "infectious"⟩,
          ⟨3, "A02", "Salmonella", "infectious"⟩]
        (([⟨1, "A00", "Cholera", "infectious"⟩] : List CatalogCode).foldl
          (fun t c => save_prediction_with_tokens t
            ⟨c.id, "claude", "v1", "desc", [], 1, 1, 3, 2, none, 1⟩) [])
        "claude" 10).length
      = (get_unprocessed_codes
          [⟨1, "A00", "Cholera", "infectious"⟩, ⟨2, "A01", "Typhoid", "infectious"⟩,
            ⟨3, "A02", "Salmonella", "infectious"⟩] [] "claude" 10).length
        - (get_unprocessed_codes
          [⟨1, "A00", "Cholera", "infectious"⟩, ⟨2, "A01", "Typhoid", "infectious"⟩,
            ⟨3, "A02", "Salmonella", "infectious"⟩] [] "claude" 10).length / 2 ∧
    (∀ c ∈ ([⟨1, "A00", "Cholera", "infectious"⟩] : List CatalogCode),
      c ∉ get_unprocessed_codes
        [⟨1, "A00", "Cholera", "infectious"⟩, ⟨2, "A01", "Typhoid", "infectious"⟩,
          ⟨3, "A02", "Salmonella", "infectious"⟩]
        (([⟨1, "A00", "Cholera", "infectious"⟩] : List CatalogCode).foldl
          (fun t c => save_prediction_with_tokens t
            ⟨c.id, "claude", "v1", "desc", [], 1, 1, 3, 2, none, 1⟩) [])
        "claude" 10) ∧
    (get_unprocessed_codes
        [⟨1, "A00", "Cholera", "infectious"⟩, ⟨2, "A01", "Typhoid", "infectious"⟩,
          ⟨3, "A02", "Salmonella", "infectious"⟩]
        (([⟨1, "A00", "Cholera", "infectious"⟩] : List CatalogCode).foldl
          (fun t c => save_prediction_with_tokens t
            ⟨c.id, "claude", "v1", "desc", [], 1, 1, 3, 2, none, 1⟩) [])
        "claude" 10).Nodup :=
  C4_pending_work_rederived
    [⟨1, "A00", "Cholera", "infectious"⟩, ⟨2, "A01", "Typhoid", "infectious"⟩,
      ⟨3, "A02", "Salmonella", "infectious"⟩]
    [] "claude" 10 [⟨1, "A00", "Cholera", "infectious"⟩]
    (fun c => ⟨c.id, "claude", "v1", "desc", [], 1, 1, 3, 2, none, 1⟩)
    (fun c => ⟨rfl, rfl⟩) (by decide) (by decide) (by decide) (by decide)

/-! ### Retrieval engine: ranking order and exclusion -/

theorem selectTop_sublist (md : List CorpusEntry) (sims : List ℚ)
    (ex sf : Option String) :
    ∀ (l : List Nat) (need : Nat), List.Sublist (selectTop md sims ex sf l need) l := by
  intro l
  induction l with
  | nil =>
    intro need
    simp [selectTop]
  | cons idx rest ih =>
    intro need
    simp only [selectTop]
    split_ifs with h1 h2 h3
    · exact (ih need).cons idx
    · exact (ih need).cons idx
    · exact (List.nil_sublist rest).cons₂ idx
    · exact (ih (need - 1)).cons₂ idx

theorem selectTop_keeps (md : List CorpusEntry) (sims : List ℚ)
    (ex sf : Option String) :
    ∀ (l : List Nat) (need idx : Nat), idx ∈ selectTop md sims ex sf l need →
      excludeSkip ex (md.getD idx default).code = false ∧
      sourceSkip sf (md.getD idx default).source = false := by
  intro l
  induction l with
  | nil =>
    intro need idx h
    simp [selectTop] at h
  | cons j rest ih =>
    intro need idx h
    simp only [selectTop] at h
    split_ifs at h with h1 h2 h3
    · exact ih need idx h
    · exact ih need idx h
    · simp only [List.mem_singleton] at h
      subst h
      exact ⟨Bool.eq_false_iff.mpr h1, Bool.eq_false_iff.mpr h2⟩
    · rcases List.mem_cons.mp h with h | h
      · subst h
        exact ⟨Bool.eq_false_iff.mpr h1, Bool.eq_false_iff.mpr h2⟩
      · exact ih (need - 1) idx h

theorem argsortIdxLe_total (sims : List ℚ) (i j : Nat) :
    argsortIdxLe sims i j || argsortIdxLe sims j i := by
  unfold argsortIdxLe
  by_cases h : simVal sims i = simVal sims j
  · rw [if_pos h, if_pos h.symm]
    simp only [Bool.or_eq_true, decide_eq_true_eq]
    exact Nat.le_total i j
  · rw [if_neg h, if_neg (fun e => h e.symm)]
    simp only [Bool.or_eq_true, decide_eq_true_eq]
    exact lt_or_gt_of_ne h

theorem argsortIdxLe_trans (sims : List ℚ) (a b c : Nat) :
    argsortIdxLe sims a b → argsortIdxLe sims b c → argsortIdxLe sims a c := by
  unfold argsortIdxLe
  by_cases h1 : simVal sims a = simVal sims b <;>
    by_cases h2 : simVal sims b = simVal sims c
  · rw [if_pos h1, if_pos h2, if_pos (h1.trans h2)]
    simp only [decide_eq_true_eq]
    exact Nat.le_trans
  · rw [if_pos h1, if_neg h2, if_neg (h1 ▸ h2)]
    intro _ hbc
    exact h1 ▸ hbc
  · rw [if_neg h1, if_pos h2, if_neg (fun e => h1 (e.trans h2.symm))]
    intro hab _
    exact h2 ▸ hab
  · rw [if_neg h1, if_neg h2]
    simp only [decide_eq_true_eq]
    intro hab hbc
    have hac := lt_trans hab hbc
    rw [if_neg (ne_of_lt hac)]
    simp only [decide_eq_true_eq]
    exact hac

theorem top_indices_nodup (sims : List ℚ) : (top_indices sims).Nodup := by
  unfold top_indices argsort
  rw [List.nodup_reverse]
  exact (List.mergeSort_perm (List.range sims.length) (argsortIdxLe sims)).symm.nodup
    (List.nodup_range _)

theorem top_indices_pairwise (sims : List ℚ) :
    (top_indices sims).Pairwise (fun i j => argsortIdxLe sims j i = true) := by
  unfold top_indices argsort
  rw [List.pairwise_reverse]
  exact List.sorted_mergeSort (argsortIdxLe_trans sims) (argsortIdxLe_total sims) _

theorem top_indices_desc (sims : List ℚ) :
    (top_indices sims).Pairwise (fun i j =>
      simVal sims j < simVal sims i ∨ (simVal sims i = simVal sims j ∧ j < i)) := by
  have h2 : (top_indices sims).Pairwise (· ≠ ·) := top_indices_nodup sims
  refine ((top_indices_pairwise sims).and h2).imp ?_
  rintro i j ⟨hle, hne⟩
  unfold argsortIdxLe at hle
  by_cases h : simVal sims j = simVal sims i
  · rw [if_pos h] at hle
    have hji := of_decide_eq_true hle
    right
    refine ⟨h.symm, ?_⟩
    rcases Nat.lt_or_ge j i with hlt | hge
    · exact hlt
    · exact absurd (Nat.le_antisymm hji hge) (fun e => hne e.symm)
  · rw [if_neg h] at hle
    exact Or.inl (of_decide_eq_true hle)

unseal List.merge List.mergeSort in
/-- C7 counterexample: two corpus entries with equal similarity.  The
result is descending-sorted, but the tied entries come back in REVERSE
corpus insertion order (`np.argsort` sorts ascending and the code
reverses it), not in insertion order as claimed: entry `"B"` (corpus
position 1) precedes entry `"A"` (corpus position 0) at equal scores. -/
theorem C7_counterexample :
    find_similar [⟨"A", "descA", "real", none⟩, ⟨"B", "descB", "real", none⟩]
        [1, 1] 2 none none
      = [⟨"B", "descB", 1, "real", none⟩, ⟨"A", "descA", 1, "real", none⟩] ∧
    find_similar [⟨"A", "descA", "real", none⟩, ⟨"B", "descB", "real", none⟩]
        [1, 1] 2 none none
      ≠ [⟨"A", "descA", 1, "real", none⟩, ⟨"B", "descB", 1, "real", none⟩] := by
  constructor <;> decide

/-- C7 amended: for every corpus, similarity row, `top_k` and filters,
the `find_similar` result is sorted descending by similarity score; at
equal scores the entries appear in reverse corpus insertion order (later
corpus index first), since the ascending argsort is reversed. -/
theorem C7_results_sorted_descending_ties_reversed (md : List CorpusEntry)
    (sims : List ℚ) (top_k : Nat) (ex sf : Option String) :
    ((find_similar md sims top_k ex sf).map RagHit.similarity).Pairwise
        (fun a b => b ≤ a) ∧
    (selectTop md sims ex sf (top_indices sims) top_k).Pairwise (fun i j =>
      simVal sims j < simVal sims i ∨ (simVal sims i = simVal sims j ∧ j < i)) := by
  have hsel := (top_indices_desc sims).sublist (selectTop_sublist md sims ex sf _ top_k)
  constructor
  · unfold find_similar
    rw [List.map_map]
    apply List.pairwise_map.mpr
    refine hsel.imp ?_
    rintro i j (h | ⟨h, _⟩)
    · exact le_of_lt h
    · exact le_of_eq h.symm
  · exact hsel

unseal List.merge List.mergeSort in
/-- C6 counterexample: with `excludeKey = ""` the Python truthiness guard
`if exclude_code and ...` is skipped entirely, so a top-ranked corpus
entry whose key IS the empty string is returned — the claim fails for
the key `K = ""`. -/
theorem C6_counterexample :
    find_similar [⟨"", "entry with empty code", "real", none⟩] [1] 5 (some "") none
      = [⟨"", "entry with empty code", 1, "real", none⟩] ∧
    (∃ h ∈ find_similar [⟨"", "entry with empty code", "real", none⟩] [1] 5
      (some "") none, h.code = "") := by
  constructor <;> decide

/-- C6 amended: for every corpus, similarity row, `top_k`, source filter
and NONEMPTY key `K`, no hit returned by `find_similar` with
`exclude_code = K` carries the code `K` — even when that entry ranks
first, because the exclusion is applied while walking the ranked index
list, after ranking. -/
theorem C6_excluded_key_never_returned (md : List CorpusEntry) (sims : List ℚ)
    (top_k : Nat) (K : String) (sf : Option String) (hK : K ≠ "") :
    ∀ h ∈ find_similar md sims top_k (some K) sf, h.code ≠ K := by
  intro h hm
  unfold find_similar at hm
  rcases List.mem_map.mp hm with ⟨idx, hidx, rfl⟩
  have hskip := (selectTop_keeps md sims (some K) sf _ top_k idx hidx).1
  simp only [excludeSkip] at hskip
  have hKb : (K != "") = true := bne_iff_ne.mpr hK
  rw [hKb, Bool.true_and] at hskip
  intro hEq
  have : ((md.getD idx default).code == K) = true := beq_iff_eq.mpr hEq
  rw [this] at hskip
  exact Bool.true_eq_false.mp hskip

unseal List.merge List.mergeSort in
/-- Witness for C6 (amended): corpus `["A", "B"]` with `"A"` ranked
first; excluding `"A"` the top hit is `"B"`, whose code is not `"A"`. -/
theorem C6_witness :
    (⟨"B", "descB", 1, "real", none⟩ : RagHit).code ≠ "A" :=
  C6_excluded_key_never_returned
    [⟨"A", "descA", "real", none⟩, ⟨"B", "descB", "real", none⟩] [2, 1] 1 "A" none
    (by decide) ⟨"B", "descB", 1, "real", none⟩ (by decide)

/-! ### Diversity mixing -/

theorem mix_parts (cand : List RagHit) (k : Nat) (re sy res : List RagHit)
    (hre : re = (cand.filter (fun c => c.source == "real")).take k)
    (hsy : sy = cand.filter (fun c => c.source == "synthetic"))
    (hres : res = (if re.length < k then re ++ sy.take (k - re.length) else re).take k) :
    res = res.filter (fun h => h.source == "real")
        ++ res.filter (fun h => h.source == "synthetic") ∧
    ((∃ h ∈ res, h.source = "synthetic") →
      (cand.filter (fun c => c.source == "real")).length < k) := by
  have hreal : ∀ h ∈ re, (h.source == "real") = true := by
    intro h hm
    rw [hre] at hm
    exact (List.mem_filter.mp (List.take_subset _ _ hm)).2
  have hsynth : ∀ h ∈ sy, (h.source == "synthetic") = true := by
    intro h hm
    rw [hsy] at hm
    exact (List.mem_filter.mp hm).2
  have hrealnotsyn : ∀ h ∈ re, (h.source == "synthetic") = false := by
    intro h hm
    have := beq_iff_eq.mp (hreal h hm)
    simp [this]
  have hsynnotreal : ∀ h ∈ sy, (h.source == "real") = false := by
    intro h hm
    have := beq_iff_eq.mp (hsynth h hm)
    simp [this]
  by_cases hlt : re.length < k
  · have hst := List.take_subset (k - re.length) sy
    have hlen : (re ++ sy.take (k - re.length)).length ≤ k := by
      rw [List.length_append, List.length_take]
      omega
    have hres2 : res = re ++ sy.take (k - re.length) := by
      rw [hres, if_pos hlt]
      exact List.take_of_length_le hlen
    constructor
    · rw [hres2, List.filter_append, List.filter_append]
      rw [List.filter_eq_self.mpr hreal,
        List.filter_eq_nil_iff.mpr (fun h hm => by
          rw [Bool.not_eq_true]
          exact hsynnotreal h (hst hm)),
        List.filter_eq_nil_iff.mpr (fun h hm => by
          rw [Bool.not_eq_true]
          exact hrealnotsyn h hm),
        List.filter_eq_self.mpr (fun h hm => hsynth h (hst hm))]
      simp
    · intro _
      rw [hre, List.length_take] at hlt
      omega
  · have hres2 : res = re := by
      rw [hres, if_neg hlt, hre, List.take_take, Nat.min_self]
    constructor
    · rw [hres2, List.filter_eq_self.mpr hreal,
        List.filter_eq_nil_iff.mpr (fun h hm => by
          rw [Bool.not_eq_true]
          exact hrealnotsyn h hm)]
      simp
    · rintro ⟨h, hm, hsrc⟩
      rw [hres2] at hm
      have := beq_iff_eq.mp (hreal h hm)
      rw [this] at hsrc
      exact absurd hsrc (by decide)

unseal List.merge List.mergeSort in
/-- C8: the caller-side diversity mix requests `3 × topK` candidates from
the ranked query, places all its authoritative (`"real"`) hits before any
derived (`"synthetic"`) hit, and includes a derived hit only when fewer
than `topK` authoritative candidates exist; concretely, for `topK = 3`
with raw ranking `[derived, derived, authoritative, authoritative]`, the
mix is `[authoritative, authoritative, derived]` — both authoritative
entries precede the remaining derived entry. -/
theorem C8_diversity_mix_prefers_authoritative (md : List CorpusEntry)
    (sims : List ℚ) (top_k : Nat) (ex : Option String) :
    (find_similar_with_rag md sims top_k ex
      = (find_similar_with_rag md sims top_k ex).filter (fun h => h.source == "real")
        ++ (find_similar_with_rag md sims top_k ex).filter
            (fun h => h.source == "synthetic")) ∧
    ((∃ h ∈ find_similar_with_rag md sims top_k ex, h.source = "synthetic") →
      ((find_similar md sims (top_k * 3) ex none).filter
        (fun c => c.source == "real")).length < top_k) ∧
    (find_similar_with_rag
        [⟨"S1", "syn one", "synthetic", some 1⟩, ⟨"S2", "syn two", "synthetic", some 2⟩,
          ⟨"R1", "real one", "real", none⟩, ⟨"R2", "real two", "real", none⟩]
        [4, 3, 2, 1] 3 none
      = [⟨"R1", "real one", 2, "real", none⟩, ⟨"R2", "real two", 1, "real", none⟩,
          ⟨"S1", "syn one", 4, "synthetic", some 1⟩]) := by
  obtain ⟨h1, h2⟩ := mix_parts (find_similar md sims (top_k * 3) ex none) top_k
    _ _ (find_similar_with_rag md sims top_k ex) rfl rfl rfl
  exact ⟨h1, h2, by decide⟩

unseal List.merge List.mergeSort in
/-- Witness for C8: in the concrete `[derived, derived, authoritative,
authoritative]` scenario the mixed result does contain a derived hit, so
the theorem yields that fewer than `topK = 3` authoritative candidates
exist. -/
theorem C8_witness :
    ((find_similar
        [⟨"S1", "syn one", "synthetic", some 1⟩, ⟨"S2", "syn two", "synthetic", some 2⟩,
          ⟨"R1", "real one", "real", none⟩, ⟨"R2", "real two", "real", none⟩]
        [4, 3, 2, 1] (3 * 3) none none).filter
      (fun c => c.source == "real")).length < 3 :=
  (C8_diversity_mix_prefers_authoritative
    [⟨"S1", "syn one", "synthetic", some 1⟩, ⟨"S2", "syn two", "synthetic", some 2⟩,
      ⟨"R1", "real one", "real", none⟩, ⟨"R2", "real two", "real", none⟩]
    [4, 3, 2, 1] 3 none).2.1 (by decide)
